import Mathlib

/-!
# Verification of the DatRi database core

A shallow embedding, in Lean 4, of the DatRi repository's database core:
the dialect-aware SELECT query builder (`internal/database/query.go`),
the unified error types (`internal/database/errors.go` and the `errs`
package), the backend error translators (`internal/database/postgres/driver.go`
and `internal/database/mysql/driver.go`), schema introspection
(driver `inspectTable`/`InspectSchema` and the `internal/schema`
introspectors), and the row-materialization helpers `ScanRows`/`ScanRow`.

Go strings are modelled as Lean `String`; `strings.ToUpper` is modelled at
the ASCII level (`Char.toUpper` on each character), which agrees with Go on
all ASCII input — every operator in the builder's allow-list is ASCII.
Go's `error` values relevant to the translators are modelled by the
inductive `GoErr`, with `errors.Is`/`errors.As` modelled as traversals of
the `Unwrap` (cause) chain.
-/

namespace DatRi

/-! ## String helpers (models of the Go standard-library calls used) -/

/-- Model of `strings.ToUpper` restricted to ASCII, mapping every character
through `Char.toUpper`. -/
def goToUpper (s : String) : String :=
  String.mk (s.data.map Char.toUpper)

/-- Model of `strings.ReplaceAll(name, quote, quotequote)` for the one-character
pattern used by `quoteIdent`: every `"` character is doubled. -/
def escapeQuotes (s : String) : String :=
  String.mk (s.data.foldr (fun c acc => if c = '"' then '"' :: '"' :: acc else c :: acc) [])

/-- Model of Go's `strings.Join(parts, sep)`. -/
def strJoin (sep : String) : List String → String
  | [] => ""
  | [s] => s
  | s :: rest => s ++ sep ++ strJoin sep rest

/-! ## `internal/database/query.go` — the query builder -/

/-- Go `Dialect` from query.go: `DialectPostgres` emits numbered `$n`
placeholders, `DialectMySQL` emits the single marker `?`. -/
inductive Dialect where
  | postgres
  | mysql
deriving DecidableEq, Repr

/-- The dynamic values (`any` in Go) carried by WHERE clauses and by
LIMIT/OFFSET into the positional argument list. -/
inductive Value where
  | int (n : Int)
  | str (s : String)
  | bool (b : Bool)
deriving DecidableEq, Repr

/-- Go `ErrKind` from `internal/database/errors.go` (six constants, `iota`-based). -/
inductive ErrKind where
  | ErrKindUnknown
  | ErrKindNotFound
  | ErrKindConnectionFailed
  | ErrKindTimeout
  | ErrKindQueryFailed
  | ErrKindInvalidInput
deriving DecidableEq, Repr, Fintype

/-! ## Go error values and the unwrap chain

`GoErr` models the native Go error values that reach the translators:
the two no-rows sentinels, the two context errors, structured backend
errors (`pgconn.PgError`, `mysql.MySQLError`), `fmt.Errorf("…: %w", e)`
wrapping, and arbitrary other errors. -/
inductive GoErr where
  /-- Go `pgx.ErrNoRows` -/
  | noRowsPgx
  /-- Go `database/sql.ErrNoRows` -/
  | noRowsSql
  /-- Go `context.DeadlineExceeded` -/
  | ctxDeadlineExceeded
  /-- Go `context.Canceled` -/
  | ctxCanceled
  /-- Go `*pgconn.PgError` with its SQLSTATE code and message -/
  | pgErr (code : String) (msg : String)
  /-- Go `*mysql.MySQLError` with its numeric code and message -/
  | myErr (num : Nat) (msg : String)
  /-- an error produced by `fmt.Errorf` with `%w` — `Unwrap` returns the cause -/
  | wrapped (msg : String) (cause : GoErr)
  /-- any other error value (network, TLS, auth, …) -/
  | other (msg : String)
deriving DecidableEq, Repr

/-- The `errors.Unwrap` chain of an error: the error itself followed by
every cause reachable through `Unwrap`. -/
def GoErr.chain : GoErr → List GoErr
  | .wrapped m c => .wrapped m c :: c.chain
  | e => [e]

/-- Model of `errors.Is(err, target)` for sentinel targets: membership of the
target in the unwrap chain. -/
def errorsIs (err target : GoErr) : Bool :=
  err.chain.contains target

/-- Model of `errors.As(err, &pgErr)`: the first `*pgconn.PgError`
in the unwrap chain, if any. -/
def GoErr.firstPg : GoErr → Option (String × String)
  | .pgErr c m => some (c, m)
  | .wrapped _ cause => cause.firstPg
  | _ => none

/-- Model of `errors.As(err, &mysqlErr)`: the first `*mysql.MySQLError`
in the unwrap chain, if any. -/
def GoErr.firstMy : GoErr → Option (Nat × String)
  | .myErr n m => some (n, m)
  | .wrapped _ cause => cause.firstMy
  | _ => none

/-- Go `DBError` from `internal/database/errors.go`: the single error type
returned by all database operations. `Cause` holds the original
driver-level error (`none` models a nil cause). -/
structure DBError where
  Kind : ErrKind
  Message : String
  Cause : Option GoErr
deriving DecidableEq, Repr

/-- Go `errInvalidInput` constructor helper from errors.go. -/
def errInvalidInput (msg : String) : DBError :=
  ⟨.ErrKindInvalidInput, msg, none⟩

/-- Go `errQuery` constructor helper from errors.go. -/
def errQuery (msg : String) (cause : GoErr) : DBError :=
  ⟨.ErrKindQueryFailed, msg, some cause⟩

/-! ## Query-builder data -/

/-- Go `whereClause` from query.go. -/
structure WhereClause where
  column : String
  op : String
  value : Value
deriving DecidableEq, Repr

/-- Go `orderClause` from query.go; `dir = true` is `Desc`. -/
structure OrderClause where
  column : String
  dir : Bool
deriving DecidableEq, Repr

/-- Go `SelectBuilder` from query.go. The Go field `where` is named
`whereCl` here because `where` is a Lean keyword. -/
structure SelectBuilder where
  table : String
  dialect : Dialect
  columns : List String
  whereCl : List WhereClause
  orderBy : List OrderClause
  limit : Option Int
  offset : Option Int
deriving DecidableEq, Repr

/-- Go `Select(table, d)` — start a new builder. -/
def Select (table : String) (d : Dialect) : SelectBuilder :=
  ⟨table, d, [], [], [], none, none⟩

/-- Go `(*SelectBuilder).Columns` — restrict the selected columns. -/
def SelectBuilder.Columns (b : SelectBuilder) (cols : List String) : SelectBuilder :=
  { b with columns := cols }

/-- Go `(*SelectBuilder).Where` — append a WHERE condition (AND-combined). -/
def SelectBuilder.Where (b : SelectBuilder) (column op : String) (value : Value) : SelectBuilder :=
  { b with whereCl := b.whereCl ++ [⟨column, op, value⟩] }

/-- Go `(*SelectBuilder).OrderBy` — append an ORDER BY clause. -/
def SelectBuilder.OrderBy (b : SelectBuilder) (column : String) (dir : Bool) : SelectBuilder :=
  { b with orderBy := b.orderBy ++ [⟨column, dir⟩] }

/-- Go `(*SelectBuilder).Limit`. -/
def SelectBuilder.Limit (b : SelectBuilder) (n : Int) : SelectBuilder :=
  { b with limit := some n }

/-- Go `(*SelectBuilder).Offset`. -/
def SelectBuilder.Offset (b : SelectBuilder) (n : Int) : SelectBuilder :=
  { b with offset := some n }

/-- Go `validOps` from query.go — the allow-list of WHERE comparison operators. -/
def validOpsList : List String :=
  ["=", "!=", "<>", "<", ">", "<=", ">=", "LIKE", "ILIKE"]

/-- Lookup in the `validOps` map: `validOps[op]` is `false` for absent keys. -/
def validOps (op : String) : Bool :=
  validOpsList.contains op

/-- Go `quoteIdent` from query.go: wrap an identifier in double quotes,
doubling embedded quote characters. -/
def quoteIdent (name : String) : String :=
  "\"" ++ escapeQuotes name ++ "\""

/-- Go `(*SelectBuilder).placeholder` from query.go: `?` for MySQL,
`$idx` otherwise. -/
def placeholder (d : Dialect) (idx : Nat) : String :=
  match d with
  | .mysql => "?"
  | .postgres => "$" ++ toString idx

/-- The WHERE-loop of `Build` (query.go lines 136–148): for each clause in
order, upper-case the operator, reject it if it is not in the allow-list,
otherwise emit `"col" OP placeholder` and append the value to the args.
Returns the textual parts, the collected args, and the next placeholder
index. -/
def buildWhere (d : Dialect) : List WhereClause → Nat → Except DBError (List String × List Value × Nat)
  | [], idx => .ok ([], [], idx)
  | w :: ws, idx =>
    let op := goToUpper w.op
    if validOps op then
      match buildWhere d ws (idx + 1) with
      | .ok (parts, args, fin) =>
          .ok (((quoteIdent w.column ++ " " ++ op ++ " ") ++ placeholder d idx) :: parts,
               w.value :: args, fin)
      | .error e => .error e
    else
      .error (errInvalidInput ("unsupported WHERE operator: \"" ++ w.op ++ "\""))

/-- Go `(*SelectBuilder).Build` from query.go: the final SQL string, the
positional argument slice, and the error slot. The Go signature
`(string, []any, error)` is modelled as the triple; the error path
returns `("", [], some e)` exactly as the Go code returns `"", nil, err`. -/
def SelectBuilder.Build (b : SelectBuilder) : String × List Value × Option DBError :=
  let cols := if b.columns.isEmpty then "*"
              else strJoin ", " (b.columns.map quoteIdent)
  match buildWhere b.dialect b.whereCl 1 with
  | .error e => ("", [], some e)
  | .ok (parts, wargs, idx1) =>
    let whereStr := if b.whereCl.isEmpty then "" else " WHERE " ++ strJoin " AND " parts
    let orderStr := if b.orderBy.isEmpty then ""
      else " ORDER BY " ++ strJoin ", "
        (b.orderBy.map (fun o => quoteIdent o.column ++ " " ++ (if o.dir then "DESC" else "ASC")))
    let limitPart : String × List Value × Nat :=
      match b.limit with
      | some n => (" LIMIT " ++ placeholder b.dialect idx1, [Value.int n], idx1 + 1)
      | none => ("", [], idx1)
    let offsetPart : String × List Value :=
      match b.offset with
      | some n => (" OFFSET " ++ placeholder b.dialect limitPart.2.2, [Value.int n])
      | none => ("", [])
    (("SELECT " ++ cols ++ " FROM " ++ quoteIdent b.table) ++
       whereStr ++ orderStr ++ limitPart.1 ++ offsetPart.1,
     wargs ++ limitPart.2.1 ++ offsetPart.2, none)

/-! ## The `errs` package (`src/unnamed` sources, package errs)

The `errs` package is the second, seven-member error-kind enumeration
in the repository (doc comment: "the unified error type used across all
of DatRi"); the MySQL driver translates into it. -/

/-- Go `errs.ErrKind` — seven constants, `iota`-based, including
`ErrKindPermissionDenied`. -/
inductive ErrsKind where
  | ErrKindUnknown
  | ErrKindNotFound
  | ErrKindConnectionFailed
  | ErrKindTimeout
  | ErrKindQueryFailed
  | ErrKindInvalidInput
  | ErrKindPermissionDenied
deriving DecidableEq, Repr, Fintype

/-- Go `errs.Error` — the error struct of the `errs` package. -/
structure ErrsError where
  Kind : ErrsKind
  Message : String
  Cause : Option GoErr
deriving DecidableEq, Repr

/-- Go `errs.Wrap(kind, msg, cause)`. -/
def errsWrap (kind : ErrsKind) (msg : String) (cause : GoErr) : ErrsError :=
  ⟨kind, msg, some cause⟩

/-! ## Backend error translators

`mapError` from `internal/database/postgres/driver.go` (lines 336–368) and
`mapError` + `classifyMySQLCode` from `internal/database/mysql/driver.go`
(lines 247–284). Both check context cancellation/deadline first, then the
backend's no-rows sentinel, then the structured native error, then fall
through to `ConnectionFailed`. The `nil`-error branch of the Go functions
is outside this model: `GoErr` values model non-nil errors. -/

/-- Go `mapError` from `internal/database/postgres/driver.go`. The SQLSTATE
class test `len(Code) >= 2 && Code[:2] == "08"` is modelled as the first
two characters of the code being `08`. -/
def pgMapError (err : GoErr) (msg : String) : DBError :=
  if errorsIs err .ctxDeadlineExceeded || errorsIs err .ctxCanceled then
    ⟨.ErrKindTimeout, msg, some err⟩
  else if errorsIs err .noRowsPgx then
    ⟨.ErrKindNotFound, msg, some err⟩
  else
    match err.firstPg with
    | some (code, pmsg) =>
        let kind := if code.data.take 2 = ['0', '8'] then ErrKind.ErrKindConnectionFailed
                    else ErrKind.ErrKindQueryFailed
        ⟨kind, msg ++ ": " ++ pmsg, some err⟩
    | none => ⟨.ErrKindConnectionFailed, msg, some err⟩

/-- Go `classifyMySQLCode` from `internal/database/mysql/driver.go`
(lines 272–284): the backend-specific classification table over MySQL
error numbers. The `default` branch of the Go `switch` is the final
`else`. -/
def classifyMySQLCode (code : Nat) : ErrsKind :=
  if code = 1044 ∨ code = 1045 ∨ code = 1046 ∨ code = 1049 then
    .ErrKindConnectionFailed
  else if code = 1040 ∨ code = 1203 then
    .ErrKindConnectionFailed
  else if code = 1054 ∨ code = 1064 ∨ code = 1146 then
    .ErrKindQueryFailed
  else
    .ErrKindQueryFailed

/-- Go `mapError` from `internal/database/mysql/driver.go` (lines 247–270). -/
def myMapError (err : GoErr) (msg : String) : ErrsError :=
  if errorsIs err .ctxDeadlineExceeded || errorsIs err .ctxCanceled then
    errsWrap .ErrKindTimeout msg err
  else if errorsIs err .noRowsSql then
    errsWrap .ErrKindNotFound msg err
  else
    match err.firstMy with
    | some (num, m) => errsWrap (classifyMySQLCode num) (msg ++ ": " ++ m) err
    | none => errsWrap .ErrKindConnectionFailed msg err

/-- The error path of `(*Driver).Query` in the Postgres driver: a failing
pool query is translated with message `query failed`. -/
def pgQueryErrPath (poolErr : GoErr) : DBError :=
  pgMapError poolErr "query failed"

/-- The error path of `(*Driver).Query` in the MySQL driver. -/
def myQueryErrPath (poolErr : GoErr) : ErrsError :=
  myMapError poolErr "query failed"

/-! ## Schema model (`internal/database/schema.go`) -/

/-- Go `ColumnInfo` from schema.go. -/
structure ColumnInfo where
  Name : String
  DataType : String
  Nullable : Bool
  IsPrimary : Bool
  IsUnique : Bool
  Default : Option String
deriving DecidableEq, Repr

/-- Go `ForeignKey` from schema.go. -/
structure ForeignKey where
  Column : String
  RefTable : String
  RefColumn : String
deriving DecidableEq, Repr

/-- Go `TableInfo` from schema.go. -/
structure TableInfo where
  Name : String
  Columns : List ColumnInfo
  PrimaryKey : List String
  ForeignKeys : List ForeignKey
deriving DecidableEq, Repr

/-! ## Driver-side introspection (`postgres/driver.go`, `mysql/driver.go`)

The drivers' catalog queries are network I/O; their results are modelled
as inputs. `PgTableFetch` holds the outcome of the four per-table fetches
of the Postgres driver (`fetchColumns`, `fetchPrimaryKeys`,
`fetchUniqueColumns`, `fetchForeignKeys`). -/

structure PgTableFetch where
  columnsRes : Except GoErr (List ColumnInfo)
  pksRes : Except GoErr (List String)
  uniqueRes : Except GoErr (List String)
  fksRes : Except GoErr (List ForeignKey)
deriving Repr

/-- Go `(*Driver).inspectTable` from `postgres/driver.go` (lines 160–195):
run the four fetches in order, abort on the first error, then mark each
column primary/unique by membership in the fetched key sets, and build the
`TableInfo`. There is no emptiness check on the fetched column list. -/
def pgInspectTable (table : String) (f : PgTableFetch) : Except GoErr TableInfo := do
  let columns ← f.columnsRes
  let pks ← f.pksRes
  let uqs ← f.uniqueRes
  let fks ← f.fksRes
  let cols := columns.map (fun c =>
    { c with IsPrimary := pks.contains c.Name, IsUnique := uqs.contains c.Name })
  return ⟨table, cols, pks, fks⟩

/-- Go `(*Driver).InspectSchema` from `postgres/driver.go` (lines 138–157):
for each listed table, inspect it; any error aborts the whole build,
wrapped as `inspecting table …`. The Go `map[string]*TableInfo` is
modelled as the association list of insertions. -/
def pgInspectSchema (tables : List String) (env : String → PgTableFetch) :
    Except GoErr (List (String × TableInfo)) :=
  match tables with
  | [] => .ok []
  | t :: rest =>
    match pgInspectTable t (env t) with
    | .error e => .error (.wrapped ("inspecting table \"" ++ t ++ "\"") e)
    | .ok info =>
      match pgInspectSchema rest env with
      | .error e => .error e
      | .ok m => .ok ((t, info) :: m)

/-- One scanned column row of the MySQL driver's `fetchColumns` query:
the `ColumnInfo` fields plus the `column_key` classification field. -/
structure MyColRow where
  Name : String
  DataType : String
  Nullable : Bool
  Default : Option String
  ColumnKey : String
deriving DecidableEq, Repr

/-- The row-processing loop of the MySQL driver's `fetchColumns`
(lines 179–196): `IsPrimary` iff `column_key = "PRI"`, `IsUnique` iff
`column_key = "UNI"`, and primary columns are collected (in order) into
the primary-key list. -/
def myFetchColumnsLoop (rows : List MyColRow) : List ColumnInfo × List String :=
  match rows with
  | [] => ([], [])
  | r :: rest =>
    let (cols, pks) := myFetchColumnsLoop rest
    let c : ColumnInfo :=
      ⟨r.Name, r.DataType, r.Nullable, r.ColumnKey = "PRI", r.ColumnKey = "UNI", r.Default⟩
    (c :: cols, if r.ColumnKey = "PRI" then r.Name :: pks else pks)

/-- The per-table fetch results of the MySQL driver. -/
structure MyTableFetch where
  columnRowsRes : Except GoErr (List MyColRow)
  fksRes : Except GoErr (List ForeignKey)
deriving Repr

/-- Go `(*Driver).inspectTable` from `mysql/driver.go` (lines 142–159):
fetch columns (with primary keys derived from `column_key`), fetch
foreign keys, build the `TableInfo`. No emptiness check on the column
list. -/
def myInspectTable (table : String) (f : MyTableFetch) : Except GoErr TableInfo := do
  let rows ← f.columnRowsRes
  let fks ← f.fksRes
  let (cols, pks) := myFetchColumnsLoop rows
  return ⟨table, cols, pks, fks⟩

/-- Go `(*Driver).InspectSchema` from `mysql/driver.go` (lines 121–140). -/
def myInspectSchema (tables : List String) (env : String → MyTableFetch) :
    Except GoErr (List (String × TableInfo)) :=
  match tables with
  | [] => .ok []
  | t :: rest =>
    match myInspectTable t (env t) with
    | .error e => .error (.wrapped ("inspecting table \"" ++ t ++ "\"") e)
    | .ok info =>
      match myInspectSchema rest env with
      | .error e => .error e
      | .ok m => .ok ((t, info) :: m)

/-! ## The `internal/schema` introspectors

`PgIntrospector.InspectTable` / `MySQLIntrospector.InspectTable` scan the
catalog rows of one table directly into column records and, unlike the
driver facades, reject an empty column list:
`if len(info.Columns) == 0 return error "not found or has no columns"`. -/

/-- Go `ColumnInfo` of the `internal/schema` package (`types.go` shape used
by `introspect.go`): one scanned catalog row. -/
structure SColumnInfo where
  Name : String
  DataType : String
  IsNullable : Bool
  DefaultValue : Option String
  MaxLength : Option Int
  IsPrimaryKey : Bool
  IsUnique : Bool
deriving DecidableEq, Repr

/-- Go `TableInfo` of the `internal/schema` package. -/
structure STableInfo where
  Schema : String
  Name : String
  Columns : List SColumnInfo
deriving DecidableEq, Repr

/-- Go `(*PgIntrospector).InspectTable` from `internal/schema/introspect.go`
(and identically `(*MySQLIntrospector).InspectTable` from
`introspect_mysql.go`): the catalog query's rows (or its error) are the
input; each row is scanned into a column record in order; a zero-column
result is rejected with the error `table … not found or has no columns`. -/
def schemaInspectTable (schemaName table : String) (rowsRes : Except GoErr (List SColumnInfo)) :
    Except GoErr STableInfo :=
  match rowsRes with
  | .error e => .error e
  | .ok rows =>
    if rows.isEmpty then
      .error (.other ("table " ++ schemaName ++ "." ++ table ++ " not found or has no columns"))
    else
      .ok ⟨schemaName, table, rows⟩

/-- Go `SchemaInfo` of the `internal/schema` package: tables plus the
schema-wide foreign-key list. -/
structure SSchemaInfo where
  Tables : List STableInfo
  ForeignKeys : List (String × String × String × String × String)
deriving DecidableEq, Repr

/-- The per-table loop of the schema-package `InspectSchema`: inspect each
listed table in order, aborting the whole build on the first error. -/
def schemaInspectTables (schemaName : String)
    (env : String → Except GoErr (List SColumnInfo)) :
    List String → Except GoErr (List STableInfo)
  | [] => .ok []
  | t :: rest =>
    match schemaInspectTable schemaName t (env t) with
    | .error e => .error e
    | .ok ti =>
      match schemaInspectTables schemaName env rest with
      | .error e => .error e
      | .ok ts => .ok (ti :: ts)

/-- Go `(*PgIntrospector).InspectSchema` from `internal/schema/introspect.go`
(lines 140–163, and identically `introspect_mysql.go`): inspect each
listed table, aborting the whole build on the first error, then fetch the
schema-wide foreign keys. -/
def schemaInspectSchema (schemaName : String) (tables : List String)
    (env : String → Except GoErr (List SColumnInfo))
    (fksRes : Except GoErr (List (String × String × String × String × String))) :
    Except GoErr SSchemaInfo :=
  match schemaInspectTables schemaName env tables with
  | .error e => .error e
  | .ok ts =>
    match fksRes with
    | .error e => .error e
    | .ok fks => .ok ⟨ts, fks⟩

/-! ## Row materialization (`src/unnamed` sources, `ScanRows`/`ScanRow`)

A `Cursor` models the observable behaviour of a `database.Rows` value:
the result of `Columns()`, the `Scan` outcome of each row for which
`Next()` returns true (in order), and the post-iteration `Err()` value.
The `Bool` component of `ScanRows`' result records whether `Close()` ran
(`defer rows.Close()` fires on every exit path). -/

structure Cursor where
  columnsRes : Except GoErr (List String)
  rowScans : List (Except GoErr (List Value))
  iterErr : Option GoErr
deriving Repr

/-- The `for rows.Next()` loop of `ScanRows`: scan each row (aborting on
the first scan error) and zip the column names with the scanned values
into the row mapping. -/
def scanRowsLoop (columns : List String) :
    List (Except GoErr (List Value)) → Except DBError (List (List (String × Value)))
  | [] => .ok []
  | .error e :: _ => .error (errQuery "failed to scan row" e)
  | .ok vals :: rest =>
    match scanRowsLoop columns rest with
    | .error e => .error e
    | .ok acc => .ok ((columns.zip vals) :: acc)

/-- Go `ScanRows` from the repository's row-materialization helpers:
read the column names, materialize every row, check the iteration error,
and close the cursor on every exit path (the second component is `true`
exactly when `Close` ran). A zero-row success returns the empty —
in Go non-nil, here `.ok` — slice. -/
def ScanRows (c : Cursor) : Except DBError (List (List (String × Value))) × Bool :=
  match c.columnsRes with
  | .error e => (.error (errQuery "failed to read column names" e), true)
  | .ok columns =>
    match scanRowsLoop columns c.rowScans with
    | .error e => (.error e, true)
    | .ok result =>
      match c.iterErr with
      | some e => (.error (errQuery "error during row iteration" e), true)
      | none => (.ok result, true)

/-- Go `ScanRow` from the same file: scan the single row into the
caller-supplied column names; every scan error — including the backend's
no-rows sentinel — is wrapped by `errQuery "failed to scan single row"`. -/
def ScanRow (rowScan : Except GoErr (List Value)) (columns : List String) :
    Except DBError (List (String × Value)) :=
  match rowScan with
  | .error e => .error (errQuery "failed to scan single row" e)
  | .ok vals => .ok (columns.zip vals)

/-! ## Placeholder-position instrumentation for `Build`

To state where the placeholders occur in the produced SQL text, the text
is decomposed into segments: literal pieces and placeholder markers with
their argument position. `buildSegs` mirrors `Build` exactly, emitting
segments instead of concatenated text; the correspondence theorem
`Build_eq_render` proves that rendering the segments (placeholder `i`
rendered through the dialect's `placeholder`) yields exactly `Build`'s
SQL string and argument list. -/

/-- One segment of the produced SQL text: a literal piece, or the
placeholder marker standing for argument position `idx` (1-based). -/
inductive Seg where
  | lit (s : String)
  | ph (idx : Nat)
deriving DecidableEq, Repr

/-- Rendering of one segment under a dialect. -/
def renderSeg (d : Dialect) : Seg → String
  | .lit s => s
  | .ph i => placeholder d i

/-- Rendering of a segment list: the concatenation of the rendered
segments. -/
def renderSegs (d : Dialect) : List Seg → String
  | [] => ""
  | s :: rest => renderSeg d s ++ renderSegs d rest

/-- Argument positions of the placeholders of a segment list, in textual
order. -/
def phIndices : List Seg → List Nat
  | [] => []
  | .ph i :: rest => i :: phIndices rest
  | .lit _ :: rest => phIndices rest

/-- Segment-level form of Go's `strings.Join`: interleave the parts with a
literal separator. -/
def segJoin (sep : String) : List (List Seg) → List Seg
  | [] => []
  | [p] => p
  | p :: rest => p ++ [Seg.lit sep] ++ segJoin sep rest

/-- Segment-level mirror of `buildWhere`: same control flow, same
collected args and final index, with each textual part decomposed as its
literal prefix followed by the placeholder segment. -/
def whereSegs : List WhereClause → Nat → Except DBError (List (List Seg) × List Value × Nat)
  | [], idx => .ok ([], [], idx)
  | w :: ws, idx =>
    let op := goToUpper w.op
    if validOps op then
      match whereSegs ws (idx + 1) with
      | .ok (parts, args, fin) =>
          .ok ([Seg.lit (quoteIdent w.column ++ " " ++ op ++ " "), Seg.ph idx] :: parts,
               w.value :: args, fin)
      | .error e => .error e
    else
      .error (errInvalidInput ("unsupported WHERE operator: \"" ++ w.op ++ "\""))

/-- Segment-level mirror of `Build`. -/
def buildSegs (b : SelectBuilder) : Except DBError (List Seg × List Value) :=
  let cols := if b.columns.isEmpty then "*"
              else strJoin ", " (b.columns.map quoteIdent)
  match whereSegs b.whereCl 1 with
  | .error e => .error e
  | .ok (parts, wargs, idx1) =>
    let whereSegsL := if b.whereCl.isEmpty then [] else Seg.lit " WHERE " :: segJoin " AND " parts
    let orderSegsL := if b.orderBy.isEmpty then []
      else [Seg.lit (" ORDER BY " ++ strJoin ", "
        (b.orderBy.map (fun o => quoteIdent o.column ++ " " ++ (if o.dir then "DESC" else "ASC"))))]
    let limitPart : List Seg × List Value × Nat :=
      match b.limit with
      | some n => ([Seg.lit " LIMIT ", Seg.ph idx1], [Value.int n], idx1 + 1)
      | none => ([], [], idx1)
    let offsetPart : List Seg × List Value :=
      match b.offset with
      | some n => ([Seg.lit " OFFSET ", Seg.ph limitPart.2.2], [Value.int n])
      | none => ([], [])
    .ok (Seg.lit ("SELECT " ++ cols ++ " FROM " ++ quoteIdent b.table) ::
           (whereSegsL ++ orderSegsL ++ limitPart.1 ++ offsetPart.1),
         wargs ++ limitPart.2.1 ++ offsetPart.2)

/-- Spec-side description of the expected argument sequence: the WHERE
values in call order, then the limit if set, then the offset if set. -/
def specExpectedArgs (b : SelectBuilder) : List Value :=
  b.whereCl.map (·.value)
    ++ (match b.limit with | some n => [Value.int n] | none => [])
    ++ (match b.offset with | some n => [Value.int n] | none => [])

/-- The textual parts emitted for a list of WHERE clauses that are all
valid (after upper-casing), starting at placeholder index `idx`. -/
def whereParts : List WhereClause → Nat → List (List Seg)
  | [], _ => []
  | w :: ws, idx =>
    [Seg.lit (quoteIdent w.column ++ " " ++ goToUpper w.op ++ " "), Seg.ph idx]
      :: whereParts ws (idx + 1)

/-- Projection of the WHERE-loop result that forgets the collected values
(but keeps the error, the textual parts and the final index). -/
def dropVals : Except DBError (List String × List Value × Nat) →
    Except DBError (List String × Nat)
  | .error e => .error e
  | .ok (p, _, f) => .ok (p, f)

/-- The MySQL error numbers that appear in `classifyMySQLCode`. -/
def recognizedMySQLCodes : List Nat :=
  [1044, 1045, 1046, 1049, 1040, 1203, 1054, 1064, 1146]

/-! ## Lemmas about the builder -/

theorem renderSegs_append (d : Dialect) (l1 l2 : List Seg) :
    renderSegs d (l1 ++ l2) = renderSegs d l1 ++ renderSegs d l2 := by
  induction l1 with
  | nil => simp [renderSegs]
  | cons s rest ih => simp [renderSegs, ih, String.append_assoc]

theorem phIndices_append (l1 l2 : List Seg) :
    phIndices (l1 ++ l2) = phIndices l1 ++ phIndices l2 := by
  induction l1 with
  | nil => rfl
  | cons s rest ih => cases s <;> simp [phIndices, ih]

theorem renderSegs_segJoin (d : Dialect) (sep : String) (parts : List (List Seg)) :
    renderSegs d (segJoin sep parts) = strJoin sep (parts.map (renderSegs d)) := by
  induction parts with
  | nil => rfl
  | cons p rest ih =>
    cases rest with
    | nil => simp [segJoin, strJoin]
    | cons q qs =>
      simp only [segJoin, strJoin, List.map_cons, renderSegs_append, ih,
        renderSegs, renderSeg, String.append_empty, String.append_assoc]

/-- Go `buildWhere` produces exactly the rendering of the segment-level
`whereSegs`: same error, same args, same final index, parts rendered. -/
theorem buildWhere_eq_whereSegs (d : Dialect) (ws : List WhereClause) (idx : Nat) :
    buildWhere d ws idx =
      (whereSegs ws idx).map (fun r => (r.1.map (renderSegs d), r.2.1, r.2.2)) := by
  induction ws generalizing idx with
  | nil => rfl
  | cons w rest ih =>
    simp only [buildWhere, whereSegs]
    by_cases h : validOps (goToUpper w.op)
    · simp only [h, if_true, ih]
      cases hws : whereSegs rest (idx + 1) with
      | error e => rfl
      | ok r =>
        simp [Except.map, renderSegs, renderSeg, String.append_empty, String.append_assoc]
    · simp [h, Except.map]

theorem whereSegs_ok (ws : List WhereClause) (idx : Nat)
    (h : ∀ w ∈ ws, validOps (goToUpper w.op) = true) :
    whereSegs ws idx = .ok (whereParts ws idx, ws.map (·.value), idx + ws.length) := by
  induction ws generalizing idx with
  | nil => simp [whereSegs, whereParts]
  | cons w rest ih =>
    have hw : validOps (goToUpper w.op) = true := h w (by simp)
    have hrest : ∀ x ∈ rest, validOps (goToUpper x.op) = true :=
      fun x hx => h x (by simp [hx])
    simp only [whereSegs, hw, if_true, ih _ hrest, whereParts, List.map_cons]
    have : idx + 1 + rest.length = idx + (rest.length + 1) := by omega
    simp [this]

theorem phIndices_whereParts (ws : List WhereClause) (idx : Nat) :
    phIndices (segJoin " AND " (whereParts ws idx)) = List.range' idx ws.length := by
  induction ws generalizing idx with
  | nil => rfl
  | cons w rest ih =>
    cases rest with
    | nil => simp [whereParts, segJoin, phIndices, List.range']
    | cons w' rest' =>
      have : whereParts (w :: w' :: rest') idx
          = [Seg.lit (quoteIdent w.column ++ " " ++ goToUpper w.op ++ " "), Seg.ph idx]
              :: whereParts (w' :: rest') (idx + 1) := rfl
      rw [this]
      show phIndices (_ ++ [Seg.lit " AND "] ++ segJoin " AND " (whereParts (w' :: rest') (idx + 1)))
          = _
      simp [phIndices_append, phIndices, ih, List.range'_succ]

/-- Correspondence between `Build` and its segment-level mirror: when
`buildSegs` succeeds, `Build` returns exactly the rendered segments, the
same args, and no error; when `buildSegs` fails, `Build` returns the Go
error triple `("", nil, err)` with the same error. -/
theorem Build_eq_render (b : SelectBuilder) :
    (match buildSegs b with
     | .ok (segs, args) => b.Build = (renderSegs b.dialect segs, args, none)
     | .error e => b.Build = ("", [], some e)) := by
  unfold SelectBuilder.Build buildSegs
  rw [buildWhere_eq_whereSegs]
  cases hws : whereSegs b.whereCl 1 with
  | error e => simp [Except.map]
  | ok r =>
    obtain ⟨parts, wargs, idx1⟩ := r
    simp only [Except.map]
    cases hl : b.limit <;> cases ho : b.offset <;>
      by_cases hw : b.whereCl.isEmpty <;> by_cases hob : b.orderBy.isEmpty <;>
      simp [hw, hob, renderSegs_append, renderSegs, renderSeg, renderSegs_segJoin,
        String.append_empty, String.append_assoc]

/-- For a builder whose WHERE operators are all valid after upper-casing,
`buildSegs` succeeds with exactly the expected argument sequence, and the
placeholder positions in the segment list are `1, 2, …, args.length` in
textual order. -/
theorem buildSegs_valid (b : SelectBuilder)
    (h : ∀ w ∈ b.whereCl, validOps (goToUpper w.op) = true) :
    ∃ segs, buildSegs b = .ok (segs, specExpectedArgs b) ∧
      phIndices segs = List.range' 1 (specExpectedArgs b).length := by
  unfold buildSegs specExpectedArgs
  rw [whereSegs_ok _ _ h]
  cases hwc : b.whereCl with
  | nil =>
    cases hl : b.limit <;> cases ho : b.offset <;>
      refine ⟨_, rfl, ?_⟩ <;>
      by_cases hob : b.orderBy = [] <;>
      simp [hob, phIndices, phIndices_append, List.range'_succ]
  | cons w ws =>
    cases hl : b.limit <;> cases ho : b.offset <;>
      refine ⟨_, rfl, ?_⟩ <;>
      by_cases hob : b.orderBy = [] <;>
      simp [hob, phIndices, phIndices_append, phIndices_whereParts, List.range'_concat,
        Nat.add_comm, Nat.add_assoc, Nat.add_left_comm]

/-- When some clause's upper-cased operator is outside the allow-list, the
WHERE loop rejects the build with an `errInvalidInput` error. -/
theorem buildWhere_invalid (d : Dialect) (ws : List WhereClause) (idx : Nat)
    (h : ∃ w ∈ ws, validOps (goToUpper w.op) = false) :
    ∃ msg, buildWhere d ws idx = .error (errInvalidInput msg) := by
  induction ws generalizing idx with
  | nil => simp at h
  | cons w rest ih =>
    by_cases hw : validOps (goToUpper w.op)
    · obtain ⟨x, hx, hvx⟩ := h
      rcases List.mem_cons.mp hx with hxe | hxr
      · rw [hxe] at hvx; rw [hvx] at hw; simp at hw
      · obtain ⟨msg, hmsg⟩ := ih (idx + 1) ⟨x, hxr, hvx⟩
        refine ⟨msg, ?_⟩
        simp [buildWhere, hw, hmsg]
    · exact ⟨"unsupported WHERE operator: \"" ++ w.op ++ "\"", by simp [buildWhere, hw]⟩

/-- The WHERE parts, the final placeholder index, and the error outcome of
the WHERE loop depend only on the columns and operators of the clauses —
never on their values. -/
theorem buildWhere_congr (d : Dialect) (ws1 ws2 : List WhereClause) (idx : Nat)
    (h : ws1.map (fun w => (w.column, w.op)) = ws2.map (fun w => (w.column, w.op))) :
    dropVals (buildWhere d ws1 idx) = dropVals (buildWhere d ws2 idx) := by
  induction ws1 generalizing ws2 idx with
  | nil =>
    cases ws2 with
    | nil => rfl
    | cons w2 rest2 => simp at h
  | cons w rest ih =>
    cases ws2 with
    | nil => simp at h
    | cons w2 rest2 =>
      simp only [List.map_cons, List.cons.injEq, Prod.mk.injEq] at h
      obtain ⟨⟨hc, ho⟩, hrest⟩ := h
      have hr := ih rest2 (idx + 1) hrest
      simp only [buildWhere, hc, ho]
      by_cases hv : validOps (goToUpper w2.op)
      · simp only [hv, if_true]
        cases h1 : buildWhere d rest (idx + 1) with
        | error e =>
          cases h2 : buildWhere d rest2 (idx + 1) with
          | error e2 =>
            rw [h1, h2] at hr
            simp [dropVals] at hr
            simp [dropVals, hr]
          | ok r2 =>
            rw [h1, h2] at hr
            simp [dropVals] at hr
        | ok r1 =>
          cases h2 : buildWhere d rest2 (idx + 1) with
          | error e2 =>
            rw [h1, h2] at hr
            obtain ⟨p1, a1, f1⟩ := r1
            simp [dropVals] at hr
          | ok r2 =>
            rw [h1, h2] at hr
            obtain ⟨p1, a1, f1⟩ := r1
            obtain ⟨p2, a2, f2⟩ := r2
            simp only [dropVals, Except.ok.injEq, Prod.mk.injEq] at hr
            simp [dropVals, hr.1, hr.2]
      · simp [hv, dropVals]

/-! ## Claims -/

/-- Claim C1, counterexample: the operator token `like` is not in the
allow-list (`validOps "like" = false`), yet `Build` does not return an
InvalidInput error with an empty SQL string — it succeeds and emits SQL
text containing the upper-cased operator. -/
theorem claimC1_counterexample :
    validOps "like" = false ∧
    ((Select "t" .postgres).Where "a" "like" (.int 1)).Build
      = ("SELECT * FROM \"t\" WHERE \"a\" LIKE $1", [Value.int 1], none) ∧
    ("SELECT * FROM \"t\" WHERE \"a\" LIKE $1" : String) ≠ "" := by
  exact ⟨by decide, by decide, by decide⟩

/-- Claim C1 (amended): for every `SelectBuilder` with some WHERE clause
whose upper-cased operator token is not in the allow-list, `Build`
returns an InvalidInput-kind `DBError` together with an empty SQL string
and no argument list — no SQL text containing the rejected operator is
produced. -/
theorem claimC1_invalid_op_rejected (b : SelectBuilder)
    (h : ∃ w ∈ b.whereCl, validOps (goToUpper w.op) = false) :
    ∃ e, b.Build = ("", [], some e) ∧ e.Kind = .ErrKindInvalidInput := by
  obtain ⟨msg, hmsg⟩ := buildWhere_invalid b.dialect b.whereCl 1 h
  refine ⟨errInvalidInput msg, ?_, rfl⟩
  unfold SelectBuilder.Build
  rw [hmsg]

/-- Witness for C1 at the spec's own example: the operator
`; DROP TABLE t` is rejected with InvalidInput and an empty SQL string. -/
theorem claimC1_witness :
    ∃ e, ((Select "t" .postgres).Where "a" "; DROP TABLE t" (.int 1)).Build
      = ("", [], some e) ∧ e.Kind = .ErrKindInvalidInput :=
  claimC1_invalid_op_rejected ((Select "t" .postgres).Where "a" "; DROP TABLE t" (.int 1))
    (by decide)

/-- Claim C2: two builders that agree on table, dialect, column list, the
columns and operators of each WHERE clause, the ORDER BY clauses, and on
whether limit/offset are set — but differ arbitrarily in the WHERE values
and the limit/offset numbers — produce identical SQL text: caller values
never reach the text, only the positional argument sequence. -/
theorem claimC2_sql_independent_of_values (b1 b2 : SelectBuilder)
    (ht : b1.table = b2.table) (hd : b1.dialect = b2.dialect)
    (hc : b1.columns = b2.columns)
    (hwp : b1.whereCl.map (fun w => (w.column, w.op))
         = b2.whereCl.map (fun w => (w.column, w.op)))
    (hob : b1.orderBy = b2.orderBy)
    (hl : b1.limit.isSome = b2.limit.isSome)
    (ho : b1.offset.isSome = b2.offset.isSome) :
    (b1.Build).1 = (b2.Build).1 := by
  have hcongr := buildWhere_congr b1.dialect b1.whereCl b2.whereCl 1 hwp
  rw [hd] at hcongr
  have hie : b1.whereCl.isEmpty = b2.whereCl.isEmpty := by
    rcases hwc1 : b1.whereCl with _ | ⟨x, xs⟩ <;> rcases hwc2 : b2.whereCl with _ | ⟨y, ys⟩ <;>
      rw [hwc1, hwc2] at hwp <;> simp_all
  unfold SelectBuilder.Build
  rw [ht, hd, hc, hob, hie]
  cases h1 : buildWhere b2.dialect b1.whereCl 1 with
  | error e1 =>
    cases h2 : buildWhere b2.dialect b2.whereCl 1 with
    | error e2 => rfl
    | ok r2 =>
      rw [h1, h2] at hcongr
      obtain ⟨p2, a2, f2⟩ := r2
      simp [dropVals] at hcongr
  | ok r1 =>
    cases h2 : buildWhere b2.dialect b2.whereCl 1 with
    | error e2 =>
      rw [h1, h2] at hcongr
      obtain ⟨p1, a1, f1⟩ := r1
      simp [dropVals] at hcongr
    | ok r2 =>
      obtain ⟨p1, a1, f1⟩ := r1
      obtain ⟨p2, a2, f2⟩ := r2
      rw [h1, h2] at hcongr
      simp only [dropVals, Except.ok.injEq, Prod.mk.injEq] at hcongr
      obtain ⟨hp, hf⟩ := hcongr
      rw [hp, hf]
      rcases hb1l : b1.limit with _ | n1 <;> rcases hb2l : b2.limit with _ | n2 <;>
        rw [hb1l, hb2l] at hl <;>
        rcases hb1o : b1.offset with _ | m1 <;> rcases hb2o : b2.offset with _ | m2 <;>
        rw [hb1o, hb2o] at ho <;> simp_all

/-- Witness for C2: same structure, different WHERE value and different
limit number — the SQL text is identical. -/
theorem claimC2_witness :
    ((((Select "t" .postgres).Where "a" "=" (.int 1)).Limit 5).Build).1
      = ((((Select "t" .postgres).Where "a" "=" (.str "zz")).Limit 99).Build).1 :=
  claimC2_sql_independent_of_values _ _ rfl rfl rfl rfl rfl rfl rfl

/-- Claim C3: for every builder with valid operators, the args are the
WHERE values in call order followed by the limit then the offset when
set (`specExpectedArgs`); the SQL text is the rendering of a segment
list whose placeholder positions are exactly `1, 2, …, args.length` in
textual order — rendered `$i` under Postgres and `?` under MySQL, so the
number of markers equals the number of args; and the two dialect examples
produce exactly the spec's SQL and args. -/
theorem claimC3_placeholders_and_args :
    (∀ b : SelectBuilder, (∀ w ∈ b.whereCl, validOps (goToUpper w.op) = true) →
      ∃ segs,
        buildSegs b = .ok (segs, specExpectedArgs b) ∧
        b.Build = (renderSegs b.dialect segs, specExpectedArgs b, none) ∧
        phIndices segs = List.range' 1 (specExpectedArgs b).length ∧
        (phIndices segs).length = (specExpectedArgs b).length ∧
        (∀ i, renderSeg .postgres (.ph i) = "$" ++ toString i) ∧
        (∀ i, renderSeg .mysql (.ph i) = "?"))
    ∧ (((Select "t" .postgres).Where "a" "=" (.int 1)).Limit 5).Build
        = ("SELECT * FROM \"t\" WHERE \"a\" = $1 LIMIT $2", [Value.int 1, Value.int 5], none)
    ∧ (((Select "t" .mysql).Where "a" "=" (.int 1)).Limit 5).Build
        = ("SELECT * FROM \"t\" WHERE \"a\" = ? LIMIT ?", [Value.int 1, Value.int 5], none) := by
  refine ⟨?_, by decide, by decide⟩
  intro b h
  obtain ⟨segs, hok, hph⟩ := buildSegs_valid b h
  have hb := Build_eq_render b
  rw [hok] at hb
  exact ⟨segs, hok, hb, hph, by rw [hph]; simp, fun i => rfl, fun i => rfl⟩

/-- Witness for C3 at the Postgres example builder. -/
theorem claimC3_witness :
    ∃ segs,
      buildSegs (((Select "t" .postgres).Where "a" "=" (.int 1)).Limit 5)
        = .ok (segs, specExpectedArgs (((Select "t" .postgres).Where "a" "=" (.int 1)).Limit 5)) ∧
      (((Select "t" .postgres).Where "a" "=" (.int 1)).Limit 5).Build
        = (renderSegs .postgres segs,
           specExpectedArgs (((Select "t" .postgres).Where "a" "=" (.int 1)).Limit 5), none) ∧
      phIndices segs
        = List.range' 1
            (specExpectedArgs (((Select "t" .postgres).Where "a" "=" (.int 1)).Limit 5)).length ∧
      (phIndices segs).length
        = (specExpectedArgs (((Select "t" .postgres).Where "a" "=" (.int 1)).Limit 5)).length ∧
      (∀ i, renderSeg .postgres (.ph i) = "$" ++ toString i) ∧
      (∀ i, renderSeg .mysql (.ph i) = "?") :=
  claimC3_placeholders_and_args.1 (((Select "t" .postgres).Where "a" "=" (.int 1)).Limit 5)
    (by decide)

/-- Claim C10: the allow-list check is case-insensitive — `Build`
upper-cases the operator before the lookup, accepts every builder whose
operators are valid after upper-casing, and the SQL emitted contains the
upper-cased operator, not the token as supplied. -/
theorem claimC10_operator_case_insensitive :
    (∀ b : SelectBuilder, (∀ w ∈ b.whereCl, validOps (goToUpper w.op) = true) →
      (b.Build).2.2 = none)
    ∧ (∀ (table col op : String) (v : Value) (d : Dialect),
        validOps (goToUpper op) = true →
        ((Select table d).Where col op v).Build
          = ("SELECT * FROM " ++ quoteIdent table ++ " WHERE "
               ++ quoteIdent col ++ " " ++ goToUpper op ++ " " ++ placeholder d 1,
             [v], none)) := by
  constructor
  · intro b h
    obtain ⟨segs, hok, hph⟩ := buildSegs_valid b h
    have hb := Build_eq_render b
    rw [hok] at hb
    rw [hb]
  · intro table col op v d hv
    have hbw : buildWhere d [⟨col, op, v⟩] 1
        = .ok ([(quoteIdent col ++ " " ++ goToUpper op ++ " ") ++ placeholder d 1], [v], 2) := by
      simp [buildWhere, hv]
    show SelectBuilder.Build ⟨table, d, [], [] ++ [⟨col, op, v⟩], [], none, none⟩ = _
    unfold SelectBuilder.Build
    rw [List.nil_append, hbw]
    have hlit : ("SELECT " ++ "*" ++ " FROM " : String) = "SELECT * FROM " := by decide
    simp only [List.isEmpty_nil, List.isEmpty_cons, if_true, Bool.false_eq_true, if_false,
      strJoin, String.append_empty, Prod.mk.injEq]
    refine ⟨?_, by simp, trivial⟩
    rw [← hlit]
    simp [String.append_assoc]

/-- Witness for C10: the lower-case operator `like` is accepted and the
emitted SQL contains `LIKE`. -/
theorem claimC10_witness :
    ((Select "t" .postgres).Where "a" "like" (.str "x")).Build
      = ("SELECT * FROM " ++ quoteIdent "t" ++ " WHERE "
           ++ quoteIdent "a" ++ " " ++ goToUpper "like" ++ " " ++ placeholder .postgres 1,
         [Value.str "x"], none) :=
  claimC10_operator_case_insensitive.2 "t" "a" "like" (.str "x") .postgres (by decide)

/-- Claim C5: an error that is or wraps context deadline-exceeded or
cancellation is classified Timeout by both backend translators, before
any other classification — even when the unwrap chain would otherwise
classify differently — and the `Query` error path therefore yields a
Timeout-kind error independent of backend. -/
theorem claimC5_context_timeout_first (err : GoErr) (msg : String)
    (h : errorsIs err .ctxDeadlineExceeded = true ∨ errorsIs err .ctxCanceled = true) :
    (pgMapError err msg).Kind = .ErrKindTimeout ∧
    (myMapError err msg).Kind = .ErrKindTimeout ∧
    (pgQueryErrPath err).Kind = .ErrKindTimeout ∧
    (myQueryErrPath err).Kind = .ErrKindTimeout := by
  have hcond : (errorsIs err .ctxDeadlineExceeded || errorsIs err .ctxCanceled) = true := by
    rcases h with h | h <;> simp [h]
  refine ⟨?_, ?_, ?_, ?_⟩ <;>
    simp [pgMapError, myMapError, pgQueryErrPath, myQueryErrPath, hcond, errsWrap]

/-- Witness for C5: a cancelled operation wrapped in a driver-level
connection-failure message still classifies as Timeout. -/
theorem claimC5_witness :
    (pgMapError (.wrapped "connection reset while reading" .ctxCanceled) "query failed").Kind
        = .ErrKindTimeout ∧
    (myMapError (.wrapped "connection reset while reading" .ctxCanceled) "query failed").Kind
        = .ErrKindTimeout ∧
    (pgQueryErrPath (.wrapped "connection reset while reading" .ctxCanceled)).Kind
        = .ErrKindTimeout ∧
    (myQueryErrPath (.wrapped "connection reset while reading" .ctxCanceled)).Kind
        = .ErrKindTimeout :=
  claimC5_context_timeout_first (.wrapped "connection reset while reading" .ctxCanceled)
    "query failed" (by decide)

/-- Claim C6, counterexample: a backend-native structured error whose code
is not in the backend's classification table is translated to QueryFailed,
not to the connectivity-failure kind the claim requires — for both the
MySQL code table (9999 is unrecognized) and the Postgres SQLSTATE branch
(code `XX000` is outside class 08). -/
theorem claimC6_counterexample :
    classifyMySQLCode 9999 = .ErrKindQueryFailed ∧
    ErrsKind.ErrKindQueryFailed ≠ ErrsKind.ErrKindConnectionFailed ∧
    (pgMapError (.pgErr "XX000" "internal error") "query failed").Kind
      = .ErrKindQueryFailed ∧
    ErrKind.ErrKindQueryFailed ≠ ErrKind.ErrKindConnectionFailed := by
  exact ⟨by decide, by decide, by decide, by decide⟩

/-- Claim C6 (amended): neither translator ever passes a native error
through unclassified, but the fallback differs by shape: a structured
native error with an unrecognized code is classified QueryFailed (MySQL
table default; Postgres non-08 SQLSTATE), while an unrecognized
non-structured error value is classified ConnectionFailed — in both
backends. -/
theorem claimC6_unrecognized_fallbacks :
    (∀ num : Nat, num ∉ recognizedMySQLCodes → classifyMySQLCode num = .ErrKindQueryFailed)
    ∧ (∀ (err : GoErr) (msg : String) (num : Nat) (m : String),
        errorsIs err .ctxDeadlineExceeded = false → errorsIs err .ctxCanceled = false →
        errorsIs err .noRowsSql = false → err.firstMy = some (num, m) →
        (myMapError err msg).Kind = classifyMySQLCode num)
    ∧ (∀ (err : GoErr) (msg : String),
        errorsIs err .ctxDeadlineExceeded = false → errorsIs err .ctxCanceled = false →
        errorsIs err .noRowsSql = false → err.firstMy = none →
        (myMapError err msg).Kind = .ErrKindConnectionFailed)
    ∧ (∀ (err : GoErr) (msg : String) (code pmsg : String),
        errorsIs err .ctxDeadlineExceeded = false → errorsIs err .ctxCanceled = false →
        errorsIs err .noRowsPgx = false → err.firstPg = some (code, pmsg) →
        code.data.take 2 ≠ ['0', '8'] →
        (pgMapError err msg).Kind = .ErrKindQueryFailed)
    ∧ (∀ (err : GoErr) (msg : String),
        errorsIs err .ctxDeadlineExceeded = false → errorsIs err .ctxCanceled = false →
        errorsIs err .noRowsPgx = false → err.firstPg = none →
        (pgMapError err msg).Kind = .ErrKindConnectionFailed) := by
  refine ⟨?_, ?_, ?_, ?_, ?_⟩
  · intro num hnum
    simp only [recognizedMySQLCodes, List.mem_cons, List.not_mem_nil, or_false,
      not_or] at hnum
    obtain ⟨h1, h2, h3, h4, h5, h6, h7, h8, h9⟩ := hnum
    simp [classifyMySQLCode, h1, h2, h3, h4, h5, h6, h7, h8, h9]
  · intro err msg num m hd hc hnr hmy
    simp [myMapError, hd, hc, hnr, hmy, errsWrap]
  · intro err msg hd hc hnr hmy
    simp [myMapError, hd, hc, hnr, hmy, errsWrap]
  · intro err msg code pmsg hd hc hnr hpg htake
    simp [pgMapError, hd, hc, hnr, hpg, htake]
  · intro err msg hd hc hnr hpg
    simp [pgMapError, hd, hc, hnr, hpg]

/-- Witness for C6 (amended) at concrete errors: unrecognized MySQL code
9999 falls back to QueryFailed through the translator; unrecognized plain
error values fall back to ConnectionFailed in both backends; an
out-of-table Postgres SQLSTATE falls back to QueryFailed. -/
theorem claimC6_witness :
    classifyMySQLCode 9999 = .ErrKindQueryFailed ∧
    (myMapError (.myErr 9999 "strange failure") "query failed").Kind
      = classifyMySQLCode 9999 ∧
    (myMapError (.other "tls handshake failed") "query failed").Kind
      = .ErrKindConnectionFailed ∧
    (pgMapError (.pgErr "XX000" "internal error") "query failed").Kind
      = .ErrKindQueryFailed ∧
    (pgMapError (.other "tls handshake failed") "query failed").Kind
      = .ErrKindConnectionFailed :=
  ⟨claimC6_unrecognized_fallbacks.1 9999 (by decide),
   claimC6_unrecognized_fallbacks.2.1 (.myErr 9999 "strange failure") "query failed" 9999
     "strange failure" (by decide) (by decide) (by decide) (by decide),
   claimC6_unrecognized_fallbacks.2.2.1 (.other "tls handshake failed") "query failed"
     (by decide) (by decide) (by decide) (by decide),
   claimC6_unrecognized_fallbacks.2.2.2.1 (.pgErr "XX000" "internal error") "query failed"
     "XX000" "internal error" (by decide) (by decide) (by decide) (by decide) (by decide),
   claimC6_unrecognized_fallbacks.2.2.2.2 (.other "tls handshake failed") "query failed"
     (by decide) (by decide) (by decide) (by decide)⟩

/-- Claim C7, counterexample: the MySQL classification table maps the
access-denied code 1045 to ConnectionFailed, not to PermissionDenied. -/
theorem claimC7_counterexample :
    classifyMySQLCode 1045 = .ErrKindConnectionFailed ∧
    ErrsKind.ErrKindConnectionFailed ≠ ErrsKind.ErrKindPermissionDenied := by
  exact ⟨by decide, by decide⟩

/-- Claim C7 (amended): the repository carries two error-kind
enumerations — `database.ErrKind` with exactly six members (no
PermissionDenied), used by the query builder and the Postgres driver, and
`errs.ErrKind` with exactly the seven members of the claim including
PermissionDenied, used by the MySQL driver — and the MySQL classification
table maps the access-denied code 1045 to ConnectionFailed rather than
PermissionDenied. -/
theorem claimC7_two_enumerations :
    Fintype.card ErrsKind = 7 ∧
    Fintype.card ErrKind = 6 ∧
    classifyMySQLCode 1045 = .ErrKindConnectionFailed := by
  refine ⟨by decide, by decide, by decide⟩

/-- A listed table whose catalog column query returns zero rows makes the
schema-package per-table loop abort with an error, wherever it occurs in
the list. -/
theorem schemaInspectTables_zero_columns (schemaName : String)
    (env : String → Except GoErr (List SColumnInfo)) (tables : List String) (t : String)
    (ht : t ∈ tables) (hz : env t = .ok []) :
    ∃ e, schemaInspectTables schemaName env tables = .error e := by
  induction tables with
  | nil => simp at ht
  | cons x rest ih =>
    rcases List.mem_cons.mp ht with hxe | hxr
    · subst hxe
      refine ⟨.other ("table " ++ schemaName ++ "." ++ t ++ " not found or has no columns"), ?_⟩
      simp [schemaInspectTables, schemaInspectTable, hz]
    · cases hx : schemaInspectTable schemaName x (env x) with
      | error e => exact ⟨e, by simp [schemaInspectTables, hx]⟩
      | ok ti =>
        obtain ⟨e, he⟩ := ih hxr
        exact ⟨e, by simp [schemaInspectTables, hx, he]⟩

/-- Claim C4 (code bug): `ScanRow` over an absent row — one whose `Scan`
returns the backend's no-rows sentinel — yields a `DBError` of Kind
QueryFailed (`errQuery` wraps every scan error), not the NotFound kind
promised by the claim and by `ScanRow`'s own doc comment. -/
theorem claimC4_scanrow_absent_row_is_queryfailed :
    ScanRow (.error .noRowsPgx) ["id"]
      = .error ⟨.ErrKindQueryFailed, "failed to scan single row", some .noRowsPgx⟩ ∧
    ScanRow (.error .noRowsSql) ["id", "name"]
      = .error ⟨.ErrKindQueryFailed, "failed to scan single row", some .noRowsSql⟩ ∧
    ErrKind.ErrKindQueryFailed ≠ ErrKind.ErrKindNotFound := by
  exact ⟨rfl, rfl, by decide⟩

/-- Claim C8, counterexample: under both driver facades, `InspectSchema`
over a table whose column fetch succeeds with zero columns does NOT abort
— the whole schema is returned with the table included, carrying an empty
column list. -/
theorem claimC8_counterexample :
    pgInspectSchema ["t"] (fun _ => ⟨.ok [], .ok [], .ok [], .ok []⟩)
      = .ok [("t", ⟨"t", [], [], []⟩)] ∧
    myInspectSchema ["t"] (fun _ => ⟨.ok [], .ok []⟩)
      = .ok [("t", ⟨"t", [], [], []⟩)] := by
  exact ⟨rfl, rfl⟩

/-- Claim C8 (amended): the zero-column abort lives in the
`internal/schema` introspectors, not in the driver facades: the
schema-package `InspectSchema` aborts with an error whenever any listed
table's column fetch returns zero columns, while the drivers'
`inspectTable` succeeds on a zero-column fetch and includes the table
with an empty column list (it is not silently dropped). -/
theorem claimC8_zero_columns_behaviour :
    (∀ (schemaName : String) (tables : List String)
       (env : String → Except GoErr (List SColumnInfo))
       (fksRes : Except GoErr (List (String × String × String × String × String)))
       (t : String), t ∈ tables → env t = .ok [] →
       ∃ e, schemaInspectSchema schemaName tables env fksRes = .error e)
    ∧ (∀ (table : String) (pks uqs : List String) (fks : List ForeignKey),
        pgInspectTable table ⟨.ok [], .ok pks, .ok uqs, .ok fks⟩ = .ok ⟨table, [], pks, fks⟩)
    ∧ (∀ (table : String) (fks : List ForeignKey),
        myInspectTable table ⟨.ok [], .ok fks⟩ = .ok ⟨table, [], [], fks⟩) := by
  refine ⟨?_, ?_, ?_⟩
  · intro schemaName tables env fksRes t ht hz
    obtain ⟨e, he⟩ := schemaInspectTables_zero_columns schemaName env tables t ht hz
    exact ⟨e, by simp [schemaInspectSchema, he]⟩
  · intro table pks uqs fks
    rfl
  · intro table fks
    rfl

/-- Witness for C8 (amended) at a concrete one-table schema. -/
theorem claimC8_witness :
    (∃ e, schemaInspectSchema "public" ["t"] (fun _ => .ok []) (.ok []) = .error e) ∧
    pgInspectTable "t" ⟨.ok [], .ok ["id"], .ok [], .ok []⟩ = .ok ⟨"t", [], ["id"], []⟩ ∧
    myInspectTable "t" ⟨.ok [], .ok []⟩ = .ok ⟨"t", [], [], []⟩ :=
  ⟨claimC8_zero_columns_behaviour.1 "public" ["t"] (fun _ => .ok []) (.ok []) "t"
     (by simp) rfl,
   claimC8_zero_columns_behaviour.2.1 "t" ["id"] [] [],
   claimC8_zero_columns_behaviour.2.2 "t" []⟩

/-- Claim C9: `ScanRows` closes the cursor on every exit path — the
column-read-failure, scan-failure, iteration-error and success paths all
return with the closed flag set — and a zero-row result yields the empty
(in Go non-nil, `make`-allocated) sequence with no error. -/
theorem claimC9_scanrows_closes_and_zero_rows :
    (∀ c : Cursor, (ScanRows c).2 = true)
    ∧ (∀ (c : Cursor) (cols : List String),
        c.columnsRes = .ok cols → c.rowScans = [] → c.iterErr = none →
        (ScanRows c).1 = .ok []) := by
  constructor
  · intro c
    unfold ScanRows
    split
    · rfl
    · split
      · rfl
      · split <;> rfl
  · intro c cols hcols hrows hiter
    unfold ScanRows
    rw [hcols, hrows, hiter]
    simp [scanRowsLoop]

/-- Witness for C9 at a concrete zero-row cursor. -/
theorem claimC9_witness :
    (ScanRows ⟨.ok ["id"], [], none⟩).2 = true ∧
    (ScanRows ⟨.ok ["id"], [], none⟩).1 = .ok [] :=
  ⟨claimC9_scanrows_closes_and_zero_rows.1 ⟨.ok ["id"], [], none⟩,
   claimC9_scanrows_closes_and_zero_rows.2 ⟨.ok ["id"], [], none⟩ ["id"] rfl rfl rfl⟩

end DatRi
